import Mathlib

/-!
Shallow embedding of the request handlers of `app/routes.py` from the
justice-link-backend repository: a CRUD backend where authenticated users
submit incident reports, administrators moderate reports and publish news
articles, and an admin action log records moderation events.

The persistence layer (SQLAlchemy session) is modelled as an explicit `DB`
state threaded through each handler; `Report.query.get_or_404` becomes
`List.find?` on the stored list, in-place mutation of the fetched row
becomes replacement of the first matching element (`setFirst`), and
`db.session.add` of a new row becomes appending to the list.  Marshmallow
schema loading lives in `app/schemas.py`, which is an external file, so each
handler that validates a body takes the validation outcome as an
`Except FieldErrors payload` argument; the DB-assigned primary key and the
current timestamp are likewise explicit arguments.
-/

namespace JusticeLink

/-- The authenticated caller as resolved by the auth collaborator: identity
plus the administrator role flag used by the admin gate. -/
structure User where
  id : Nat
  is_admin : Bool
deriving DecidableEq, Repr

/-- A stored `Report` row: fields named as in the source
(`title`, `description`, `location`, `is_anonymous`, `status`, `user_id`,
`date_of_incident`).  The status is the string the handlers assign
("Pending" / "Verified" / "Rejected"). -/
structure Report where
  id : Nat
  title : String
  description : String
  location : Option String
  is_anonymous : Bool
  status : String
  user_id : Nat
  date_of_incident : Nat
deriving DecidableEq, Repr

/-- A stored `NewsArticle` row with the fields the handlers touch. -/
structure NewsArticle where
  id : Nat
  title : String
  content : String
  source : Option String
  read_more_link : Option String
  author_id : Nat
  published_date : Nat
deriving DecidableEq, Repr

/-- An `AdminLog` row: acting administrator and free-text action. -/
structure AdminLog where
  admin_id : Nat
  action : String
deriving DecidableEq, Repr

/-- The persistent store: all four tables. -/
structure DB where
  reports : List Report
  news : List NewsArticle
  users : List User
  logs : List AdminLog
deriving DecidableEq, Repr

/-- Marshmallow validation errors: a mapping from field name to a list of
human-readable messages (`err.messages`). -/
abbrev FieldErrors := List (String × List String)

/-- Validation outcome of `schema.load`: either the loaded data or the
field-to-messages error mapping. -/
abbrev Validated (α : Type) := Except FieldErrors α

/-- The JSON body of a handler response. -/
inductive Response where
  | errors (e : FieldErrors)
  | reportJson (r : Report)
  | reportListJson (rs : List Report)
  | articleJson (a : NewsArticle)
  | articleListJson (arts : List NewsArticle)
  | userListJson (us : List User)
  | summaryJson (reportsCount newsCount : Nat)
  | messageJson (m : String)
  | notFoundHtml
  | forbiddenJson
deriving DecidableEq, Repr

/-- Data loaded by `ReportSchema` for create: `title` and `description`
required, `location` and `is_anonymous` possibly absent (the handler reads
them with `data.get`). -/
structure ReportPayload where
  title : String
  description : String
  location : Option String
  is_anonymous : Option Bool
deriving DecidableEq, Repr

/-- Data loaded by `NewsArticleSchema` for create: `title` and `content`
required, `source` and `read_more_link` possibly absent. -/
structure NewsPayload where
  title : String
  content : String
  source : Option String
  read_more_link : Option String
deriving DecidableEq, Repr

/-- Data loaded by `NewsArticleSchema` with `partial=True` for update:
every field may be absent from the payload (outer `none`); a supplied
nullable field may itself carry `none`. -/
structure NewsUpdatePayload where
  title : Option String
  content : Option String
  source : Option (Option String)
  read_more_link : Option (Option String)
deriving DecidableEq, Repr

/-- Replace the first element satisfying `p` with `v`; models in-place
mutation of the single row fetched by `query.get_or_404`. -/
def setFirst (p : α → Bool) (v : α) : List α → List α
  | [] => []
  | a :: l => if p a then v :: l else a :: setFirst p v l

/-- Comparator for `order_by(Report.date_of_incident.desc())`. -/
def byIncidentDateDesc (a b : Report) : Bool :=
  decide (b.date_of_incident ≤ a.date_of_incident)

/-- Comparator for `order_by(NewsArticle.published_date.desc())`. -/
def byPublishedDateDesc (a b : NewsArticle) : Bool :=
  decide (b.published_date ≤ a.published_date)

/-- Modelled from the spec: the `Report` model lives in `app/models.py`,
which is not under src/; per the spec the Report has "a status enumeration
\x7bPending, Verified, Rejected\x7d initialized to Pending", so a newly
constructed Report carries this default status. -/
def reportDefaultStatus : String := "Pending"

/-- Modelled from the spec: the `admin_required` decorator lives in
`app/auth.py`, which is not under src/; per the spec it resolves a bearer
token to a User (token verification is an external collaborator, so the
resolved user is a parameter here) and "fails with `Forbidden` when the
resolved User role is not administrator", otherwise the handler runs with
the resolved user. -/
def admin_required (handler : User → DB → Nat × Response × DB)
    (current_user : User) (db : DB) : Nat × Response × DB :=
  if current_user.is_admin then handler current_user db
  else (403, Response.forbiddenJson, db)

/-- `home_summary` (routes.py 18-41): counts of reports and news. -/
def home_summary (db : DB) : Nat × Response × DB :=
  (200, Response.summaryJson db.reports.length db.news.length, db)

/-- `create_report` (routes.py 43-80): on validation error return the
messages with 400; otherwise construct a Report authored by
`current_user`, add it, commit, and return it with 201. -/
def create_report (current_user : User) (vres : Validated ReportPayload)
    (newId now : Nat) (db : DB) : Nat × Response × DB :=
  match vres with
  | Except.error errs => (400, Response.errors errs, db)
  | Except.ok data =>
    let new_report : Report :=
      { id := newId
        title := data.title
        description := data.description
        location := data.location
        is_anonymous := data.is_anonymous.getD false
        status := reportDefaultStatus
        user_id := current_user.id
        date_of_incident := now }
    (201, Response.reportJson new_report,
      { db with reports := db.reports ++ [new_report] })

/-- `get_reports` (routes.py 82-103): all reports ordered by incident date
descending. -/
def get_reports (current_user : User) (db : DB) : Nat × Response × DB :=
  (200, Response.reportListJson (db.reports.mergeSort byIncidentDateDesc), db)

/-- `get_my_reports` (routes.py 106-127): reports filtered by
`user_id == current_user.id`, same ordering. -/
def get_my_reports (current_user : User) (db : DB) : Nat × Response × DB :=
  (200, Response.reportListJson
    ((db.reports.filter (fun r => r.user_id == current_user.id)).mergeSort
      byIncidentDateDesc), db)

/-- `get_news_articles` (routes.py 129-145): all articles ordered by
publication date descending. -/
def get_news_articles (db : DB) : Nat × Response × DB :=
  (200, Response.articleListJson (db.news.mergeSort byPublishedDateDesc), db)

/-- `create_news_article` (routes.py 148-193): validate, construct an
article authored by the admin, add it together with an AdminLog entry,
commit, return 201. -/
def create_news_article (current_user : User) (vres : Validated NewsPayload)
    (newId now : Nat) (db : DB) : Nat × Response × DB :=
  match vres with
  | Except.error errs => (400, Response.errors errs, db)
  | Except.ok data =>
    let new_article : NewsArticle :=
      { id := newId
        title := data.title
        content := data.content
        source := data.source
        read_more_link := data.read_more_link
        author_id := current_user.id
        published_date := now }
    let log : AdminLog :=
      { admin_id := current_user.id
        action := "Created news article: " ++ data.title }
    (201, Response.articleJson new_article,
      { db with news := db.news ++ [new_article], logs := db.logs ++ [log] })

/-- `update_news_article` (routes.py 195-245): `get_or_404` first, then
validate partially, then merge each supplied field over the stored value
with `data.get(field, article.field)`, log (the message uses the title
after the merge) and commit. -/
def update_news_article (current_user : User) (id : Nat)
    (vres : Validated NewsUpdatePayload) (db : DB) : Nat × Response × DB :=
  match db.news.find? (fun a => a.id == id) with
  | none => (404, Response.notFoundHtml, db)
  | some article =>
    match vres with
    | Except.error errs => (400, Response.errors errs, db)
    | Except.ok data =>
      let article2 : NewsArticle :=
        { article with
          title := data.title.getD article.title
          content := data.content.getD article.content
          source := data.source.getD article.source
          read_more_link := data.read_more_link.getD article.read_more_link }
      let log : AdminLog :=
        { admin_id := current_user.id
          action := "Updated news article ID " ++ toString id ++ ": "
            ++ article2.title }
      (200, Response.articleJson article2,
        { db with news := setFirst (fun a => a.id == id) article2 db.news
                  logs := db.logs ++ [log] })

/-- `delete_news_article` (routes.py 247-283): `get_or_404`, capture the
title, delete the row, log and commit. -/
def delete_news_article (current_user : User) (id : Nat) (db : DB) :
    Nat × Response × DB :=
  match db.news.find? (fun a => a.id == id) with
  | none => (404, Response.notFoundHtml, db)
  | some article =>
    let article_title := article.title
    let log : AdminLog :=
      { admin_id := current_user.id
        action := "Deleted news article ID " ++ toString id ++ ": "
          ++ article_title }
    (200, Response.messageJson
        ("News article \x27" ++ article_title ++ "\x27 has been deleted"),
      { db with news := db.news.eraseP (fun a => a.id == id)
                logs := db.logs ++ [log] })

/-- `get_all_users` (routes.py 286-309): all users, no pagination. -/
def get_all_users (current_user : User) (db : DB) : Nat × Response × DB :=
  (200, Response.userListJson db.users, db)

/-- `verify_report` (routes.py 312-343): `get_or_404`, set status to
"Verified" unconditionally, log with the report id and title, commit. -/
def verify_report (current_user : User) (id : Nat) (db : DB) :
    Nat × Response × DB :=
  match db.reports.find? (fun r => r.id == id) with
  | none => (404, Response.notFoundHtml, db)
  | some report =>
    let log : AdminLog :=
      { admin_id := current_user.id
        action := "Verified report ID " ++ toString id ++ ": "
          ++ report.title }
    (200, Response.messageJson
        ("Report " ++ toString id ++ " has been verified"),
      { db with
          reports := setFirst (fun r => r.id == id)
            { report with status := "Verified" } db.reports
          logs := db.logs ++ [log] })

/-- `reject_report` (routes.py 345-376): `get_or_404`, set status to
"Rejected" unconditionally, log with the report id and title, commit. -/
def reject_report (current_user : User) (id : Nat) (db : DB) :
    Nat × Response × DB :=
  match db.reports.find? (fun r => r.id == id) with
  | none => (404, Response.notFoundHtml, db)
  | some report =>
    let log : AdminLog :=
      { admin_id := current_user.id
        action := "Rejected report ID " ++ toString id ++ ": "
          ++ report.title }
    (200, Response.messageJson
        ("Report " ++ toString id ++ " has been rejected"),
      { db with
          reports := setFirst (fun r => r.id == id)
            { report with status := "Rejected" } db.reports
          logs := db.logs ++ [log] })

/-- POST /admin/news as routed: the handler behind the admin gate. -/
def createNewsRoute (u : User) (vres : Validated NewsPayload)
    (newId now : Nat) (db : DB) : Nat × Response × DB :=
  admin_required (fun cu s => create_news_article cu vres newId now s) u db

/-- PUT /admin/news/id as routed: the handler behind the admin gate. -/
def updateNewsRoute (u : User) (id : Nat) (vres : Validated NewsUpdatePayload)
    (db : DB) : Nat × Response × DB :=
  admin_required (fun cu s => update_news_article cu id vres s) u db

/-- DELETE /admin/news/id as routed: the handler behind the admin gate. -/
def deleteNewsRoute (u : User) (id : Nat) (db : DB) : Nat × Response × DB :=
  admin_required (fun cu s => delete_news_article cu id s) u db

/-- PUT /admin/reports/verify/id as routed: the handler behind the admin
gate. -/
def verifyReportRoute (u : User) (id : Nat) (db : DB) : Nat × Response × DB :=
  admin_required (fun cu s => verify_report cu id s) u db

/-- PUT /admin/reports/reject/id as routed: the handler behind the admin
gate. -/
def rejectReportRoute (u : User) (id : Nat) (db : DB) : Nat × Response × DB :=
  admin_required (fun cu s => reject_report cu id s) u db

/-! Helper lemmas about `setFirst`. -/

theorem find?_setFirst_self {α : Type} {p : α → Bool} {v a : α} {l : List α}
    (hfind : l.find? p = some a) (hv : p v = true) :
    (setFirst p v l).find? p = some v := by
  induction l with
  | nil => simp at hfind
  | cons x l ih =>
    cases hx : p x with
    | true => simp [setFirst, hx, List.find?_cons_of_pos _ hv]
    | false =>
      rw [List.find?_cons_of_neg _ (by simp [hx])] at hfind
      simp only [setFirst, hx, Bool.false_eq_true, if_false]
      rw [List.find?_cons_of_neg _ (by simp [hx])]
      exact ih hfind

theorem setFirst_idem {α : Type} {p : α → Bool} {v : α} (hv : p v = true)
    (l : List α) : setFirst p v (setFirst p v l) = setFirst p v l := by
  induction l with
  | nil => rfl
  | cons x l ih =>
    cases hx : p x with
    | true => simp [setFirst, hx, hv]
    | false => simp [setFirst, hx, ih]

theorem setFirst_of_find?_self {α : Type} {p : α → Bool} {a : α} {l : List α}
    (hfind : l.find? p = some a) : setFirst p a l = l := by
  induction l with
  | nil => rfl
  | cons x l ih =>
    cases hx : p x with
    | true =>
      rw [List.find?_cons_of_pos _ hx] at hfind
      cases hfind
      simp [setFirst, hx]
    | false =>
      rw [List.find?_cons_of_neg _ (by simp [hx])] at hfind
      simp [setFirst, hx, ih hfind]

/-! Sample values used by the witnesses. -/

/-- A sample administrator. -/
def wAdmin : User := { id := 1, is_admin := true }

/-- A sample report owned by user 2, id 10. -/
def wReport : Report :=
  { id := 10, title := "Pothole", description := "Large pothole on Main St"
    location := none, is_anonymous := false, status := "Pending"
    user_id := 2, date_of_incident := 5 }

/-- A sample news article authored by admin 1, id 20. -/
def wArticle : NewsArticle :=
  { id := 20, title := "Cleanup day", content := "The park was cleaned"
    source := some "City desk", read_more_link := none
    author_id := 1, published_date := 7 }

/-- A sample store holding the sample report and article. -/
def wDB : DB := { reports := [wReport], news := [wArticle], users := [wAdmin], logs := [] }

/-- An empty store. -/
def emptyDB : DB := { reports := [], news := [], users := [], logs := [] }

/-- C1: For every call to verify (PUT /admin/reports/verify/id) or reject
(PUT /admin/reports/reject/id) by an administrator on a report id present
in storage, the status of the report afterwards is Verified or Rejected
respectively, exactly one AdminLog entry referencing that report id is
appended by the call, and the handler returns 200. -/
theorem verify_reject_existing_ok (u : User) (id : Nat) (db : DB) (r : Report)
    (hadmin : u.is_admin = true)
    (hr : db.reports.find? (fun x => x.id == id) = some r) :
    (verifyReportRoute u id db).1 = 200 ∧
    ((verifyReportRoute u id db).2.2.reports.find? (fun x => x.id == id)
      = some { r with status := "Verified" }) ∧
    (verifyReportRoute u id db).2.2.logs = db.logs ++
      [{ admin_id := u.id
         action := "Verified report ID " ++ toString id ++ ": " ++ r.title }] ∧
    (rejectReportRoute u id db).1 = 200 ∧
    ((rejectReportRoute u id db).2.2.reports.find? (fun x => x.id == id)
      = some { r with status := "Rejected" }) ∧
    (rejectReportRoute u id db).2.2.logs = db.logs ++
      [{ admin_id := u.id
         action := "Rejected report ID " ++ toString id ++ ": " ++ r.title }] := by
  have hpr : (r.id == id) = true := by simpa using List.find?_some hr
  have hv1 : (setFirst (fun x : Report => x.id == id)
      { r with status := "Verified" } db.reports).find? (fun x => x.id == id)
      = some { r with status := "Verified" } :=
    find?_setFirst_self hr (by simpa using hpr)
  have hv2 : (setFirst (fun x : Report => x.id == id)
      { r with status := "Rejected" } db.reports).find? (fun x => x.id == id)
      = some { r with status := "Rejected" } :=
    find?_setFirst_self hr (by simpa using hpr)
  refine ⟨?_, ?_, ?_, ?_, ?_, ?_⟩ <;>
    simp [verifyReportRoute, rejectReportRoute, admin_required, hadmin,
      verify_report, reject_report, hr, hv1, hv2]

/-- C1 witness: the theorem applied to the sample store. -/
theorem verify_reject_existing_ok_witness :
    wAdmin.is_admin = true ∧
    wDB.reports.find? (fun x => x.id == 10) = some wReport ∧
    ((verifyReportRoute wAdmin 10 wDB).1 = 200 ∧
     ((verifyReportRoute wAdmin 10 wDB).2.2.reports.find? (fun x => x.id == 10)
       = some { wReport with status := "Verified" }) ∧
     (verifyReportRoute wAdmin 10 wDB).2.2.logs = wDB.logs ++
       [{ admin_id := wAdmin.id
          action := "Verified report ID " ++ toString 10 ++ ": " ++ wReport.title }] ∧
     (rejectReportRoute wAdmin 10 wDB).1 = 200 ∧
     ((rejectReportRoute wAdmin 10 wDB).2.2.reports.find? (fun x => x.id == 10)
       = some { wReport with status := "Rejected" }) ∧
     (rejectReportRoute wAdmin 10 wDB).2.2.logs = wDB.logs ++
       [{ admin_id := wAdmin.id
          action := "Rejected report ID " ++ toString 10 ++ ": " ++ wReport.title }]) :=
  ⟨rfl, rfl, verify_reject_existing_ok wAdmin 10 wDB wReport rfl rfl⟩

/-- C2: For every call to an endpoint that looks up a record by id (news
update, news delete, report verify, report reject) with an id not present
in storage, the handler returns 404, no AdminLog entry is written and no
other state changes: the store is returned unchanged. -/
theorem notfound_404_no_state_change (u : User) (id : Nat) (db : DB)
    (vres : Validated NewsUpdatePayload) (hadmin : u.is_admin = true) :
    (db.news.find? (fun a => a.id == id) = none →
      updateNewsRoute u id vres db = (404, Response.notFoundHtml, db)) ∧
    (db.news.find? (fun a => a.id == id) = none →
      deleteNewsRoute u id db = (404, Response.notFoundHtml, db)) ∧
    (db.reports.find? (fun r => r.id == id) = none →
      verifyReportRoute u id db = (404, Response.notFoundHtml, db)) ∧
    (db.reports.find? (fun r => r.id == id) = none →
      rejectReportRoute u id db = (404, Response.notFoundHtml, db)) := by
  refine ⟨fun h => ?_, fun h => ?_, fun h => ?_, fun h => ?_⟩ <;>
    simp [updateNewsRoute, deleteNewsRoute, verifyReportRoute,
      rejectReportRoute, admin_required, hadmin, update_news_article,
      delete_news_article, verify_report, reject_report, h]

/-- C2 witness: the theorem applied to the empty store at id 99. -/
theorem notfound_404_no_state_change_witness :
    wAdmin.is_admin = true ∧
    ((emptyDB.news.find? (fun a => a.id == 99) = none →
       updateNewsRoute wAdmin 99 (Except.ok ⟨none, none, none, none⟩) emptyDB
         = (404, Response.notFoundHtml, emptyDB)) ∧
     (emptyDB.news.find? (fun a => a.id == 99) = none →
       deleteNewsRoute wAdmin 99 emptyDB = (404, Response.notFoundHtml, emptyDB)) ∧
     (emptyDB.reports.find? (fun r => r.id == 99) = none →
       verifyReportRoute wAdmin 99 emptyDB = (404, Response.notFoundHtml, emptyDB)) ∧
     (emptyDB.reports.find? (fun r => r.id == 99) = none →
       rejectReportRoute wAdmin 99 emptyDB = (404, Response.notFoundHtml, emptyDB))) :=
  ⟨rfl, notfound_404_no_state_change wAdmin 99 emptyDB
    (Except.ok ⟨none, none, none, none⟩) rfl⟩

/-- C3: For every successful partial update of a NewsArticle
(PUT /admin/news/id), every field omitted from the payload retains its
pre-update value, and every supplied field takes the supplied value
(last-write-wins per field). -/
theorem update_partial_merge (u : User) (id : Nat) (db : DB)
    (a : NewsArticle) (p : NewsUpdatePayload)
    (hadmin : u.is_admin = true)
    (hfind : db.news.find? (fun x => x.id == id) = some a) :
    ∃ a2, (updateNewsRoute u id (Except.ok p) db).1 = 200 ∧
      (updateNewsRoute u id (Except.ok p) db).2.2.news.find?
        (fun x => x.id == id) = some a2 ∧
      (p.title = none → a2.title = a.title) ∧
      (∀ v, p.title = some v → a2.title = v) ∧
      (p.content = none → a2.content = a.content) ∧
      (∀ v, p.content = some v → a2.content = v) ∧
      (p.source = none → a2.source = a.source) ∧
      (∀ v, p.source = some v → a2.source = v) ∧
      (p.read_more_link = none → a2.read_more_link = a.read_more_link) ∧
      (∀ v, p.read_more_link = some v → a2.read_more_link = v) := by
  have hpa : (a.id == id) = true := by simpa using List.find?_some hfind
  refine ⟨{ a with
      title := p.title.getD a.title
      content := p.content.getD a.content
      source := p.source.getD a.source
      read_more_link := p.read_more_link.getD a.read_more_link },
    ?_, ?_, ?_, ?_, ?_, ?_, ?_, ?_, ?_, ?_⟩
  · simp [updateNewsRoute, admin_required, hadmin, update_news_article, hfind]
  · simpa [updateNewsRoute, admin_required, hadmin, update_news_article, hfind]
      using find?_setFirst_self hfind (by simpa using hpa)
  · intro h; simp [h]
  · intro v h; simp [h]
  · intro h; simp [h]
  · intro v h; simp [h]
  · intro h; simp [h]
  · intro v h; simp [h]
  · intro h; simp [h]
  · intro v h; simp [h]

/-- C3 witness: the theorem applied to the sample store with a payload that
supplies a new title and a null source and omits the other fields. -/
theorem update_partial_merge_witness :
    wAdmin.is_admin = true ∧
    wDB.news.find? (fun x => x.id == 20) = some wArticle ∧
    (∃ a2, (updateNewsRoute wAdmin 20
        (Except.ok ⟨some "New title", none, some none, none⟩) wDB).1 = 200 ∧
      (updateNewsRoute wAdmin 20
        (Except.ok ⟨some "New title", none, some none, none⟩) wDB).2.2.news.find?
          (fun x => x.id == 20) = some a2 ∧
      ((⟨some "New title", none, some none, none⟩ : NewsUpdatePayload).title = none
        → a2.title = wArticle.title) ∧
      (∀ v, (⟨some "New title", none, some none, none⟩ : NewsUpdatePayload).title = some v
        → a2.title = v) ∧
      ((⟨some "New title", none, some none, none⟩ : NewsUpdatePayload).content = none
        → a2.content = wArticle.content) ∧
      (∀ v, (⟨some "New title", none, some none, none⟩ : NewsUpdatePayload).content = some v
        → a2.content = v) ∧
      ((⟨some "New title", none, some none, none⟩ : NewsUpdatePayload).source = none
        → a2.source = wArticle.source) ∧
      (∀ v, (⟨some "New title", none, some none, none⟩ : NewsUpdatePayload).source = some v
        → a2.source = v) ∧
      ((⟨some "New title", none, some none, none⟩ : NewsUpdatePayload).read_more_link = none
        → a2.read_more_link = wArticle.read_more_link) ∧
      (∀ v, (⟨some "New title", none, some none, none⟩ : NewsUpdatePayload).read_more_link = some v
        → a2.read_more_link = v)) :=
  ⟨rfl, rfl, update_partial_merge wAdmin 20 wDB wArticle
    ⟨some "New title", none, some none, none⟩ rfl rfl⟩

/-- C4 counterexample: a news update request whose body fails schema
validation but whose path id is absent from storage returns 404, not 400:
`get_or_404` runs before the schema is loaded. -/
theorem validation_400_counterexample :
    (updateNewsRoute wAdmin 99
      (Except.error [("title", ["Missing data for required field."])])
      emptyDB).1 = 404 ∧
    ¬ (updateNewsRoute wAdmin 99
      (Except.error [("title", ["Missing data for required field."])])
      emptyDB).1 = 400 := by
  constructor <;> decide

/-- C4 (amended): for report create and news create, a request whose body
fails schema validation returns 400 with the field-to-messages mapping and
leaves the store unchanged (no record created or modified, no AdminLog
entry); the same holds for news update provided the referenced id exists —
a missing id yields 404 before validation runs. -/
theorem validation_error_400 (u : User) (id newId now : Nat) (db : DB)
    (errs : FieldErrors) (a : NewsArticle)
    (hadmin : u.is_admin = true)
    (hfind : db.news.find? (fun x => x.id == id) = some a) :
    create_report u (Except.error errs) newId now db
      = (400, Response.errors errs, db) ∧
    createNewsRoute u (Except.error errs) newId now db
      = (400, Response.errors errs, db) ∧
    updateNewsRoute u id (Except.error errs) db
      = (400, Response.errors errs, db) := by
  refine ⟨rfl, ?_, ?_⟩ <;>
    simp [createNewsRoute, updateNewsRoute, admin_required, hadmin,
      create_news_article, update_news_article, hfind]

/-- C4 witness: the amended theorem applied to the sample store. -/
theorem validation_error_400_witness :
    wAdmin.is_admin = true ∧
    wDB.news.find? (fun x => x.id == 20) = some wArticle ∧
    (create_report wAdmin (Except.error [("title", ["Not a valid string."])]) 30 9 wDB
      = (400, Response.errors [("title", ["Not a valid string."])], wDB) ∧
    createNewsRoute wAdmin (Except.error [("title", ["Not a valid string."])]) 30 9 wDB
      = (400, Response.errors [("title", ["Not a valid string."])], wDB) ∧
    updateNewsRoute wAdmin 20 (Except.error [("title", ["Not a valid string."])]) wDB
      = (400, Response.errors [("title", ["Not a valid string."])], wDB)) :=
  ⟨rfl, rfl, validation_error_400 wAdmin 20 30 9 wDB
    [("title", ["Not a valid string."])] wArticle rfl rfl⟩

/-- C5: For every valid report submission (POST /reports) by an
authenticated user, the stored Report has status Pending and its author
equal to the submitting user, and the handler returns 201 with the created
record, appended to storage. -/
theorem create_report_pending_owned (u : User) (p : ReportPayload)
    (newId now : Nat) (db : DB) :
    (create_report u (Except.ok p) newId now db).1 = 201 ∧
    ∃ r, (create_report u (Except.ok p) newId now db).2.1
        = Response.reportJson r ∧
      (create_report u (Except.ok p) newId now db).2.2.reports
        = db.reports ++ [r] ∧
      r.status = "Pending" ∧ r.user_id = u.id :=
  ⟨rfl, _, rfl, rfl, rfl, rfl⟩

theorem byIncidentDateDesc_trans (a b c : Report)
    (hab : byIncidentDateDesc a b = true) (hbc : byIncidentDateDesc b c = true) :
    byIncidentDateDesc a c = true := by
  simp only [byIncidentDateDesc, decide_eq_true_eq] at *
  omega

theorem byIncidentDateDesc_total (a b : Report) :
    (byIncidentDateDesc a b || byIncidentDateDesc b a) = true := by
  simp only [byIncidentDateDesc, Bool.or_eq_true, decide_eq_true_eq]
  omega

theorem pairwise_mergeSort_incident (l : List Report) :
    (l.mergeSort byIncidentDateDesc).Pairwise
      (fun a b => b.date_of_incident ≤ a.date_of_incident) := by
  have h := List.sorted_mergeSort byIncidentDateDesc_trans byIncidentDateDesc_total l
  exact h.imp (fun hab => by
    simpa [byIncidentDateDesc] using hab)

/-- C6: For every user A, get_my_reports (GET /my_reports) returns exactly
the Reports authored by A — never a Report authored by any other user —
ordered by incident/submission date descending, with status 200. -/
theorem get_my_reports_only_own (u : User) (db : DB) :
    (get_my_reports u db).1 = 200 ∧
    ∃ rs, (get_my_reports u db).2.1 = Response.reportListJson rs ∧
      (∀ r, r ∈ rs ↔ (r ∈ db.reports ∧ r.user_id = u.id)) ∧
      rs.Pairwise (fun a b => b.date_of_incident ≤ a.date_of_incident) := by
  refine ⟨rfl, _, rfl, ?_, pairwise_mergeSort_incident _⟩
  intro r
  simp [get_my_reports, List.mem_mergeSort, List.mem_filter]

/-- C8: get_reports (GET /reports) returns every Report in storage
regardless of ownership (a permutation of the whole table), ordered by
incident/submission date descending, with status 200, for any
authenticated user. -/
theorem get_reports_all_sorted (u : User) (db : DB) :
    (get_reports u db).1 = 200 ∧
    ∃ rs, (get_reports u db).2.1 = Response.reportListJson rs ∧
      rs.Perm db.reports ∧
      (∀ r, r ∈ rs ↔ r ∈ db.reports) ∧
      rs.Pairwise (fun a b => b.date_of_incident ≤ a.date_of_incident) := by
  refine ⟨rfl, _, rfl, List.mergeSort_perm _ _, ?_, pairwise_mergeSort_incident _⟩
  intro r
  simp [List.mem_mergeSort]

/-- C7: Repeated verify (or repeated reject) calls on the same existing
report are idempotent in effect on the stored reports — the second call
leaves the reports table exactly as the first left it — but each call
appends a new, duplicate AdminLog entry. -/
theorem verify_reject_idempotent (u : User) (id : Nat) (db : DB) (r : Report)
    (hadmin : u.is_admin = true)
    (hr : db.reports.find? (fun x => x.id == id) = some r) :
    ((verifyReportRoute u id (verifyReportRoute u id db).2.2).2.2.reports
      = (verifyReportRoute u id db).2.2.reports) ∧
    ((verifyReportRoute u id (verifyReportRoute u id db).2.2).2.2.logs
      = db.logs ++
        [{ admin_id := u.id
           action := "Verified report ID " ++ toString id ++ ": " ++ r.title },
         { admin_id := u.id
           action := "Verified report ID " ++ toString id ++ ": " ++ r.title }]) ∧
    ((rejectReportRoute u id (rejectReportRoute u id db).2.2).2.2.reports
      = (rejectReportRoute u id db).2.2.reports) ∧
    ((rejectReportRoute u id (rejectReportRoute u id db).2.2).2.2.logs
      = db.logs ++
        [{ admin_id := u.id
           action := "Rejected report ID " ++ toString id ++ ": " ++ r.title },
         { admin_id := u.id
           action := "Rejected report ID " ++ toString id ++ ": " ++ r.title }]) := by
  have hpr : (r.id == id) = true := by simpa using List.find?_some hr
  have hfV : (setFirst (fun x : Report => x.id == id)
      { r with status := "Verified" } db.reports).find? (fun x => x.id == id)
      = some { r with status := "Verified" } :=
    find?_setFirst_self hr (by simpa using hpr)
  have hfR : (setFirst (fun x : Report => x.id == id)
      { r with status := "Rejected" } db.reports).find? (fun x => x.id == id)
      = some { r with status := "Rejected" } :=
    find?_setFirst_self hr (by simpa using hpr)
  have hiV := setFirst_idem (p := fun x : Report => x.id == id)
    (v := { r with status := "Verified" }) (by simpa using hpr) db.reports
  have hiR := setFirst_idem (p := fun x : Report => x.id == id)
    (v := { r with status := "Rejected" }) (by simpa using hpr) db.reports
  refine ⟨?_, ?_, ?_, ?_⟩ <;>
    simp [verifyReportRoute, rejectReportRoute, admin_required, hadmin,
      verify_report, reject_report, hr, hfV, hfR, hiV, hiR]

/-- C7 witness: the theorem applied to the sample store. -/
theorem verify_reject_idempotent_witness :
    wAdmin.is_admin = true ∧
    wDB.reports.find? (fun x => x.id == 10) = some wReport ∧
    (((verifyReportRoute wAdmin 10 (verifyReportRoute wAdmin 10 wDB).2.2).2.2.reports
       = (verifyReportRoute wAdmin 10 wDB).2.2.reports) ∧
     ((verifyReportRoute wAdmin 10 (verifyReportRoute wAdmin 10 wDB).2.2).2.2.logs
       = wDB.logs ++
         [{ admin_id := wAdmin.id
            action := "Verified report ID " ++ toString 10 ++ ": " ++ wReport.title },
          { admin_id := wAdmin.id
            action := "Verified report ID " ++ toString 10 ++ ": " ++ wReport.title }]) ∧
     ((rejectReportRoute wAdmin 10 (rejectReportRoute wAdmin 10 wDB).2.2).2.2.reports
       = (rejectReportRoute wAdmin 10 wDB).2.2.reports) ∧
     ((rejectReportRoute wAdmin 10 (rejectReportRoute wAdmin 10 wDB).2.2).2.2.logs
       = wDB.logs ++
         [{ admin_id := wAdmin.id
            action := "Rejected report ID " ++ toString 10 ++ ": " ++ wReport.title },
          { admin_id := wAdmin.id
            action := "Rejected report ID " ++ toString 10 ++ ": " ++ wReport.title }])) :=
  ⟨rfl, rfl, verify_reject_idempotent wAdmin 10 wDB wReport rfl rfl⟩

/-- C9: verify and reject set the status of the report unconditionally
with no transition guard: whatever the prior status of the found report, a
verify call yields Verified and a reject call yields Rejected, and each
call flips the result of the other when applied afterwards. -/
theorem verify_reject_unguarded (u : User) (id : Nat) (db : DB) (r : Report)
    (hadmin : u.is_admin = true)
    (hr : db.reports.find? (fun x => x.id == id) = some r) :
    ((verifyReportRoute u id db).2.2.reports.find? (fun x => x.id == id)
      = some { r with status := "Verified" }) ∧
    ((rejectReportRoute u id db).2.2.reports.find? (fun x => x.id == id)
      = some { r with status := "Rejected" }) ∧
    ((rejectReportRoute u id (verifyReportRoute u id db).2.2).2.2.reports.find?
        (fun x => x.id == id) = some { r with status := "Rejected" }) ∧
    ((verifyReportRoute u id (rejectReportRoute u id db).2.2).2.2.reports.find?
        (fun x => x.id == id) = some { r with status := "Verified" }) := by
  have hpr : (r.id == id) = true := by simpa using List.find?_some hr
  have hfV : (setFirst (fun x : Report => x.id == id)
      { r with status := "Verified" } db.reports).find? (fun x => x.id == id)
      = some { r with status := "Verified" } :=
    find?_setFirst_self hr (by simpa using hpr)
  have hfR : (setFirst (fun x : Report => x.id == id)
      { r with status := "Rejected" } db.reports).find? (fun x => x.id == id)
      = some { r with status := "Rejected" } :=
    find?_setFirst_self hr (by simpa using hpr)
  have hfVR : (setFirst (fun x : Report => x.id == id)
      { r with status := "Rejected" }
      (setFirst (fun x : Report => x.id == id)
        { r with status := "Verified" } db.reports)).find? (fun x => x.id == id)
      = some { r with status := "Rejected" } :=
    find?_setFirst_self hfV (by simpa using hpr)
  have hfRV : (setFirst (fun x : Report => x.id == id)
      { r with status := "Verified" }
      (setFirst (fun x : Report => x.id == id)
        { r with status := "Rejected" } db.reports)).find? (fun x => x.id == id)
      = some { r with status := "Verified" } :=
    find?_setFirst_self hfR (by simpa using hpr)
  refine ⟨?_, ?_, ?_, ?_⟩ <;>
    simp [verifyReportRoute, rejectReportRoute, admin_required, hadmin,
      verify_report, reject_report, hr, hfV, hfR, hfVR, hfRV]

/-- C9 witness: the theorem applied to the sample store, whose report
starts as Pending. -/
theorem verify_reject_unguarded_witness :
    wAdmin.is_admin = true ∧
    wDB.reports.find? (fun x => x.id == 10) = some wReport ∧
    (((verifyReportRoute wAdmin 10 wDB).2.2.reports.find? (fun x => x.id == 10)
       = some { wReport with status := "Verified" }) ∧
     ((rejectReportRoute wAdmin 10 wDB).2.2.reports.find? (fun x => x.id == 10)
       = some { wReport with status := "Rejected" }) ∧
     ((rejectReportRoute wAdmin 10 (verifyReportRoute wAdmin 10 wDB).2.2).2.2.reports.find?
        (fun x => x.id == 10) = some { wReport with status := "Rejected" }) ∧
     ((verifyReportRoute wAdmin 10 (rejectReportRoute wAdmin 10 wDB).2.2).2.2.reports.find?
        (fun x => x.id == 10) = some { wReport with status := "Verified" })) :=
  ⟨rfl, rfl, verify_reject_unguarded wAdmin 10 wDB wReport rfl rfl⟩

/-- C10: Every successful news update call (PUT /admin/news/id on an
existing id with any valid payload) returns 200 and appends exactly one
AdminLog entry — whose action names the article id and its post-merge
title — even when the payload supplies no fields, in which case the
articles table is left completely unchanged as well. -/
theorem update_valid_payload_always_logs (u : User) (id : Nat) (db : DB)
    (a : NewsArticle) (p : NewsUpdatePayload)
    (hadmin : u.is_admin = true)
    (hfind : db.news.find? (fun x => x.id == id) = some a) :
    (updateNewsRoute u id (Except.ok p) db).1 = 200 ∧
    (updateNewsRoute u id (Except.ok p) db).2.2.logs
      = db.logs ++
        [{ admin_id := u.id
           action := "Updated news article ID " ++ toString id ++ ": "
             ++ p.title.getD a.title }] ∧
    (updateNewsRoute u id (Except.ok ⟨none, none, none, none⟩) db).2.2.news
      = db.news ∧
    (updateNewsRoute u id (Except.ok ⟨none, none, none, none⟩) db).2.2.logs
      = db.logs ++
        [{ admin_id := u.id
           action := "Updated news article ID " ++ toString id ++ ": " ++ a.title }] := by
  have hset := setFirst_of_find?_self hfind
  refine ⟨?_, ?_, ?_, ?_⟩ <;>
    simp [updateNewsRoute, admin_required, hadmin, update_news_article, hfind, hset]

/-- C10 witness: the theorem applied to the sample store with a payload
that supplies a new title. -/
theorem update_valid_payload_always_logs_witness :
    wAdmin.is_admin = true ∧
    wDB.news.find? (fun x => x.id == 20) = some wArticle ∧
    ((updateNewsRoute wAdmin 20
        (Except.ok ⟨some "New headline", none, none, none⟩) wDB).1 = 200 ∧
     (updateNewsRoute wAdmin 20
        (Except.ok ⟨some "New headline", none, none, none⟩) wDB).2.2.logs
       = wDB.logs ++
         [{ admin_id := wAdmin.id
            action := "Updated news article ID " ++ toString 20 ++ ": "
              ++ (⟨some "New headline", none, none, none⟩ :
                    NewsUpdatePayload).title.getD wArticle.title }] ∧
     (updateNewsRoute wAdmin 20 (Except.ok ⟨none, none, none, none⟩) wDB).2.2.news
       = wDB.news ∧
     (updateNewsRoute wAdmin 20 (Except.ok ⟨none, none, none, none⟩) wDB).2.2.logs
       = wDB.logs ++
         [{ admin_id := wAdmin.id
            action := "Updated news article ID " ++ toString 20 ++ ": "
              ++ wArticle.title }]) :=
  ⟨rfl, rfl, update_valid_payload_always_logs wAdmin 20 wDB wArticle
    ⟨some "New headline", none, none, none⟩ rfl rfl⟩

end JusticeLink
